import Mathlib

/-!
Shallow embedding of TVM's structured error module (`python/tvm/error.py`)
together with the error registry / boundary codec that the module's
`@register_error` decorator (imported from `tvm.ffi`, outside this tree)
feeds into.  The class declarations and their base lists are transcribed
directly from the source; Python's builtin exception hierarchy supplies the
bases of the builtin classes.  Matching an error with an `except C` clause
is `isinstance`, i.e. reachability in the base-class graph.
-/

set_option autoImplicit false

namespace TVMSpec

/-- Python classes relevant to `python/tvm/error.py`: the builtin exception
classes it inherits from and the ten classes the module declares. -/
inductive PyClass where
  | BaseException
  | Exception
  | OSError
  | RuntimeError
  | TimeoutError
  | NotImplementedError
  | AttributeError
  | TVMError
  | InternalError
  | RPCError
  | RPCSessionTimeoutError
  | OpError
  | OpNotImplemented
  | OpAttributeRequired
  | OpAttributeInvalid
  | OpAttributeUnImplemented
  | DiagnosticError
deriving DecidableEq, BEq

/-- Direct base classes.  The module's classes carry exactly the bases
written in the source (`class TVMError(RuntimeError)`,
`class RPCSessionTimeoutError(RPCError, TimeoutError)`, ...); the builtin
classes carry their bases from Python's exception hierarchy
(`NotImplementedError <: RuntimeError`, `TimeoutError <: OSError`). -/
def directBases : PyClass → List PyClass
  | .BaseException => []
  | .Exception => [.BaseException]
  | .OSError => [.Exception]
  | .RuntimeError => [.Exception]
  | .TimeoutError => [.OSError]
  | .NotImplementedError => [.RuntimeError]
  | .AttributeError => [.Exception]
  | .TVMError => [.RuntimeError]
  | .InternalError => [.TVMError]
  | .RPCError => [.TVMError]
  | .RPCSessionTimeoutError => [.RPCError, .TimeoutError]
  | .OpError => [.TVMError]
  | .OpNotImplemented => [.OpError, .NotImplementedError]
  | .OpAttributeRequired => [.OpError, .AttributeError]
  | .OpAttributeInvalid => [.OpError, .AttributeError]
  | .OpAttributeUnImplemented => [.OpError, .NotImplementedError]
  | .DiagnosticError => [.TVMError]

/-- Fuelled reflexive-transitive closure of `directBases`.  Fuel 16 exceeds
the depth of any chain in the 17-class graph, so no ancestor is truncated. -/
def ancestorsAux : Nat → PyClass → List PyClass
  | 0, c => [c]
  | n + 1, c => c :: (directBases c).flatMap (fun b => ancestorsAux n b)

/-- Class ancestors, the class itself included. -/
def ancestors (c : PyClass) : List PyClass :=
  ancestorsAux 16 c

/-- Python `issubclass a b` over the declared bases (reflexive). -/
def isSubclass (a b : PyClass) : Bool :=
  (ancestors a).contains b

/-- Raised error instance: the concrete class it was raised with, the
message passed to the constructor, and the optional structured payload the
spec's transfer format mentions. -/
structure Raised where
  cls : PyClass
  message : String
  payload : Option String
deriving DecidableEq

/-- Python `except handler` catching a raised instance: `isinstance`. -/
def catches (handler : PyClass) (e : Raised) : Bool :=
  isSubclass e.cls handler

/-- Exact-kind matching: the raised class is the given class itself. -/
def matchByKind (e : Raised) (k : PyClass) : Bool :=
  e.cls == k

/-- Cross-cutting facets, the spec's closed enumeration (its `None` member
is rendered as the empty facet set). -/
inductive Facet where
  | Timeout
  | NotImplemented
  | AttributeMissing
  | AttributeInvalid
deriving DecidableEq, BEq

/-- Generic builtin base through which the source carries each facet:
`Timeout` is inherited via `TimeoutError`, `NotImplemented` via
`NotImplementedError`, and both attribute facets via the single builtin
`AttributeError` base that `OpAttributeRequired` and `OpAttributeInvalid`
share in the source. -/
def facetBase : Facet → PyClass
  | .Timeout => .TimeoutError
  | .NotImplemented => .NotImplementedError
  | .AttributeMissing => .AttributeError
  | .AttributeInvalid => .AttributeError

/-- By-facet matching as the code realises it: an `except` clause on the
facet's generic builtin base. -/
def matchByFacet (e : Raised) (f : Facet) : Bool :=
  isSubclass e.cls (facetBase f)

/-- Facet sets exactly as the spec's words assign them (facet axis of the
error-handling taxonomy), kept separate from the source-derived
`facetBase` so the two can be compared. -/
def specFacetsOf : PyClass → List Facet
  | .RPCSessionTimeoutError => [.Timeout]
  | .OpNotImplemented => [.NotImplemented]
  | .OpAttributeUnImplemented => [.NotImplemented]
  | .OpAttributeRequired => [.AttributeMissing]
  | .OpAttributeInvalid => [.AttributeInvalid]
  | _ => []

/-- Domain-category parent of each declared class: its base class when that
base is itself a registered domain kind.  The root `TVMError` is not
registered, so classes whose only TVM base is `TVMError` have no domain
parent. -/
def domainParent : PyClass → Option PyClass
  | .RPCSessionTimeoutError => some .RPCError
  | .OpNotImplemented => some .OpError
  | .OpAttributeRequired => some .OpError
  | .OpAttributeInvalid => some .OpError
  | .OpAttributeUnImplemented => some .OpError
  | _ => none

/-- Fuelled chain of `domainParent` links starting at a class.  Fuel 16
exceeds any possible chain length over the 17 classes, so the resulting
length is the true chain length. -/
def domainAncestorsAux : Nat → PyClass → List PyClass
  | 0, c => [c]
  | n + 1, c =>
    c :: (match domainParent c with
          | none => []
          | some p => domainAncestorsAux n p)

/-- By-category matching: the raised class's kind, or any ancestor along
`domainParent`, equals the given category. -/
def matchByCategory (e : Raised) (cat : PyClass) : Bool :=
  (domainAncestorsAux 16 e.cls).contains cat

/-- Classes passed to `@register_error` in `python/tvm/error.py`, in source
order.  `TVMError` itself carries no decorator and is absent. -/
def moduleErrorClasses : List PyClass :=
  [.InternalError, .RPCError, .RPCSessionTimeoutError, .OpError,
   .OpNotImplemented, .OpAttributeRequired, .OpAttributeInvalid,
   .OpAttributeUnImplemented, .DiagnosticError]

/-- Canonical kind identifier of a class: its name. -/
def kindName : PyClass → String
  | .BaseException => "BaseException"
  | .Exception => "Exception"
  | .OSError => "OSError"
  | .RuntimeError => "RuntimeError"
  | .TimeoutError => "TimeoutError"
  | .NotImplementedError => "NotImplementedError"
  | .AttributeError => "AttributeError"
  | .TVMError => "TVMError"
  | .InternalError => "InternalError"
  | .RPCError => "RPCError"
  | .RPCSessionTimeoutError => "RPCSessionTimeoutError"
  | .OpError => "OpError"
  | .OpNotImplemented => "OpNotImplemented"
  | .OpAttributeRequired => "OpAttributeRequired"
  | .OpAttributeInvalid => "OpAttributeInvalid"
  | .OpAttributeUnImplemented => "OpAttributeUnImplemented"
  | .DiagnosticError => "DiagnosticError"

/-- Modelled from the spec: the error registry and its `register` contract
live in `tvm.ffi` (the `register_error` import), which is not under this
tree; the registration failure mode is the spec's `DuplicateKind`. -/
inductive RegistrationFailure where
  | DuplicateKind
deriving DecidableEq

/-- Modelled from the spec: a Variant Descriptor records one error
variant's kind identifier, optional domain-category parent, and facet
set. -/
structure VariantDescriptor where
  kind : String
  domain_parent : Option String
  facets : List Facet
deriving DecidableEq

/-- Modelled from the spec: the process-wide Error Registry, a mapping from
kind identifier to Variant Descriptor, here an append-only association
list. -/
abbrev Registry := List (String × VariantDescriptor)

/-- Registry lookup: first entry whose key equals the kind; `none` for
unknown kinds (the fallback path, not an error). -/
def lookupReg (r : Registry) (k : String) : Option VariantDescriptor :=
  match r with
  | [] => none
  | (k₀, d) :: rest => if k₀ = k then some d else lookupReg rest k

/-- Modelled from the spec: `register` (the body of `tvm.ffi`'s
`register_error`) appends a new descriptor, is a successful no-op on an
identical re-registration, and fails with `DuplicateKind` when the kind is
already present with a different descriptor body. -/
def register (r : Registry) (d : VariantDescriptor) :
    Except RegistrationFailure Registry :=
  match lookupReg r d.kind with
  | some d₀ => if d₀ = d then .ok r else .error .DuplicateKind
  | none => .ok (r ++ [(d.kind, d)])

/-- Sequential registration of a batch of descriptors, stopping at the
first failure. -/
def registerAll (r : Registry) : List VariantDescriptor →
    Except RegistrationFailure Registry
  | [] => .ok r
  | d :: ds =>
    match register r d with
    | .ok r₁ => registerAll r₁ ds
    | .error e => .error e

/-- Cross-boundary transfer record: kind string, message, optional
payload. -/
structure TransferRecord where
  kind : String
  message : String
  payload : Option String
deriving DecidableEq

/-- Host-side error value produced by decoding: the resolved descriptor
(`none` on the unknown-kind fallback path), the raw kind string, the
message, and the payload. -/
structure DecodedError where
  desc : Option VariantDescriptor
  kind : String
  message : String
  payload : Option String
deriving DecidableEq

/-- Encode a raised instance for the boundary: its class's kind name, its
message, its payload. -/
def encode (e : Raised) : TransferRecord :=
  ⟨kindName e.cls, e.message, e.payload⟩

/-- Modelled from the spec: `decode` (the receiving half of the Boundary
Codec, in `tvm.ffi`, not under this tree) resolves the kind through the
registry; a found kind yields the concrete value with the transmitted
message, an unknown kind yields the generic fallback that keeps the raw
kind string and the message verbatim.  It is total: no failure of its
own. -/
def decode (r : Registry) (t : TransferRecord) : DecodedError :=
  match lookupReg r t.kind with
  | some d => ⟨some d, t.kind, t.message, t.payload⟩
  | none => ⟨none, t.kind, t.kind ++ ": " ++ t.message, t.payload⟩

/-- Variant Descriptor that `@register_error` derives from a declared
class: kind is the class name, domain parent per `domainParent`, facets per
the spec's facet axis. -/
def descriptorOf (c : PyClass) : VariantDescriptor :=
  ⟨kindName c, (domainParent c).map kindName, specFacetsOf c⟩

/-- Descriptors registered by `python/tvm/error.py` at module load, in
source order: one per `@register_error` occurrence. -/
def moduleDescriptors : List VariantDescriptor :=
  moduleErrorClasses.map descriptorOf

/-- Registry state after the module's nine registrations (registration
succeeds, as the accompanying theorems show). -/
def moduleRegistry : Registry :=
  match registerAll [] moduleDescriptors with
  | .ok r => r
  | .error _ => []

/-- Key of an appended entry that was absent is found after the append. -/
theorem lookupReg_append (r : Registry) (k : String) (d : VariantDescriptor)
    (h : lookupReg r k = none) : lookupReg (r ++ [(k, d)]) k = some d := by
  induction r with
  | nil => simp [lookupReg]
  | cons e rest ih =>
    obtain ⟨k₀, d₀⟩ := e
    by_cases hk : k₀ = k
    · simp [lookupReg, hk] at h
    · simp only [lookupReg, hk, if_false, List.cons_append] at h ⊢
      exact ih h

/-- Claim C1 as stated fails on the code: for a raised error of kind
`OpAttributeRequired`, by-facet matching on `AttributeMissing` succeeds but
by-facet matching on `AttributeInvalid` does not fail, because both
attribute facets are carried by the single builtin base `AttributeError`
that `OpAttributeRequired` and `OpAttributeInvalid` share. -/
theorem attribute_facets_counterexample :
    ¬ (matchByFacet ⟨.OpAttributeRequired, "Required attribute axis not found in operator conv2d", none⟩
         .AttributeMissing = true ∧
       matchByFacet ⟨.OpAttributeRequired, "Required attribute axis not found in operator conv2d", none⟩
         .AttributeInvalid = false) := by
  decide

/-- Claim C1 amended: `AttributeMissing` and `AttributeInvalid` are
distinct members of the facet enumeration only in the spec's words
(`specFacetsOf` separates them); in the code both denote the same generic
base `AttributeError`, so by-facet matching on either facet succeeds for
every raised error of kind `OpAttributeRequired` and for every raised
error of kind `OpAttributeInvalid` alike. -/
theorem attribute_facets_amended :
    ∀ (msg : String) (pl : Option String),
      facetBase .AttributeMissing = facetBase .AttributeInvalid ∧
      matchByFacet ⟨.OpAttributeRequired, msg, pl⟩ .AttributeMissing = true ∧
      matchByFacet ⟨.OpAttributeRequired, msg, pl⟩ .AttributeInvalid = true ∧
      matchByFacet ⟨.OpAttributeInvalid, msg, pl⟩ .AttributeMissing = true ∧
      matchByFacet ⟨.OpAttributeInvalid, msg, pl⟩ .AttributeInvalid = true ∧
      specFacetsOf .OpAttributeRequired ≠ specFacetsOf .OpAttributeInvalid :=
  fun _ _ => ⟨rfl, rfl, rfl, rfl, rfl, by decide⟩

/-- Claim C2: every raised error of kind `OpNotImplemented` matches
category `OpError` by-category (its domain parent) and does not match
category `RPCError`. -/
theorem op_not_implemented_category :
    ∀ (msg : String) (pl : Option String),
      matchByCategory ⟨.OpNotImplemented, msg, pl⟩ .OpError = true ∧
      matchByCategory ⟨.OpNotImplemented, msg, pl⟩ .RPCError = false :=
  fun _ _ => ⟨rfl, rfl⟩

/-- Claim C3: every raised error of kind `RPCSessionTimeoutError` matches
facet `Timeout`, and no raised error of kind `OpAttributeInvalid` does. -/
theorem timeout_facet_matching :
    ∀ (msg : String) (pl : Option String),
      matchByFacet ⟨.RPCSessionTimeoutError, msg, pl⟩ .Timeout = true ∧
      matchByFacet ⟨.OpAttributeInvalid, msg, pl⟩ .Timeout = false :=
  fun _ _ => ⟨rfl, rfl⟩

/-- Claim C4: among the module's registered kinds the `NotImplemented`
facet is carried exactly by `OpNotImplemented` and `OpAttributeUnImplemented`
and the `Timeout` facet exactly by `RPCSessionTimeoutError`; by-facet
matching therefore catches raised errors of those kinds; the two
`NotImplemented` carriers are unrelated as classes, and the `Timeout`
carrier's domain parent differs from theirs. -/
theorem facet_carriers :
    moduleErrorClasses.filter (fun c => isSubclass c (facetBase .NotImplemented)) =
      [.OpNotImplemented, .OpAttributeUnImplemented] ∧
    moduleErrorClasses.filter (fun c => isSubclass c (facetBase .Timeout)) =
      [.RPCSessionTimeoutError] ∧
    (∀ (msg : String) (pl : Option String),
      matchByFacet ⟨.OpNotImplemented, msg, pl⟩ .NotImplemented = true ∧
      matchByFacet ⟨.OpAttributeUnImplemented, msg, pl⟩ .NotImplemented = true ∧
      matchByFacet ⟨.RPCSessionTimeoutError, msg, pl⟩ .Timeout = true) ∧
    isSubclass .OpNotImplemented .OpAttributeUnImplemented = false ∧
    isSubclass .OpAttributeUnImplemented .OpNotImplemented = false ∧
    domainParent .RPCSessionTimeoutError ≠ domainParent .OpNotImplemented :=
  ⟨by decide, by decide, fun _ _ => ⟨rfl, rfl, rfl⟩, by decide, by decide, by decide⟩

/-- Claim C5: the three matching predicates compose without exclusion: one
raised error value of kind `RPCSessionTimeoutError` simultaneously matches
its domain category `RPCError`, its facet `Timeout`, and its exact kind. -/
theorem matches_compose :
    matchByCategory ⟨.RPCSessionTimeoutError, "RPC session has expired", none⟩ .RPCError = true ∧
    matchByFacet ⟨.RPCSessionTimeoutError, "RPC session has expired", none⟩ .Timeout = true ∧
    matchByKind ⟨.RPCSessionTimeoutError, "RPC session has expired", none⟩ .RPCSessionTimeoutError = true :=
  ⟨rfl, rfl, rfl⟩

/-- Claim C6: every registered Variant Descriptor's `domain_parent` chain
is at most 2 levels deep: a descriptor either has no domain parent or its
parent is a registered root whose own `domain_parent` is `none`;
equivalently, every registered class's domain-ancestor chain has length at
most 2. -/
theorem domain_chain_shallow :
    (moduleDescriptors.all fun d =>
      match d.domain_parent with
      | none => true
      | some p =>
        match lookupReg moduleRegistry p with
        | none => false
        | some dp => dp.domain_parent.isNone) = true ∧
    (moduleErrorClasses.all fun c =>
      decide ((domainAncestorsAux 16 c).length ≤ 2)) = true :=
  ⟨by decide, by decide⟩

/-- Claim C7: `register` is idempotent on identical input and atomic on
conflict: after a successful registration of `d`, registering `d` again
succeeds and returns the registry unchanged, while registering a different
descriptor under the same kind fails with `DuplicateKind` and the original
descriptor is still the one found under that kind. -/
theorem register_contract (r r₁ : Registry) (d d' : VariantDescriptor)
    (hok : register r d = Except.ok r₁) :
    register r₁ d = Except.ok r₁ ∧
    (d'.kind = d.kind → d' ≠ d →
      register r₁ d' = Except.error RegistrationFailure.DuplicateKind ∧
      lookupReg r₁ d.kind = some d) := by
  have hl : lookupReg r₁ d.kind = some d := by
    unfold register at hok
    cases hcase : lookupReg r d.kind with
    | some d₀ =>
      rw [hcase] at hok
      by_cases he : d₀ = d
      · subst he
        simp at hok
        subst hok
        exact hcase
      · simp [he] at hok
    | none =>
      rw [hcase] at hok
      simp only [Except.ok.injEq] at hok
      subst hok
      exact lookupReg_append r d.kind d hcase
  refine ⟨?_, fun hk hne => ⟨?_, hl⟩⟩
  · unfold register
    rw [hl]
    simp
  · unfold register
    rw [hk, hl]
    have hdd : ¬ (d = d') := fun h => hne h.symm
    simp [hdd]

/-- Descriptor claiming the kind `OpError` with a different body than the
module's own `OpError` descriptor. -/
def conflictingOpError : VariantDescriptor :=
  ⟨"OpError", some "TVMError", [.NotImplemented]⟩

/-- Witness for the register contract at a concrete registry: registering
the module's `OpError` descriptor on top of itself succeeds unchanged, and
registering a conflicting body under the kind `OpError` is rejected. -/
theorem register_contract_witness :
    register [("OpError", descriptorOf PyClass.OpError)] (descriptorOf PyClass.OpError) =
      Except.ok [("OpError", descriptorOf PyClass.OpError)] ∧
    register [("OpError", descriptorOf PyClass.OpError)] conflictingOpError =
      Except.error RegistrationFailure.DuplicateKind := by
  have h := register_contract [] [("OpError", descriptorOf PyClass.OpError)]
      (descriptorOf PyClass.OpError) conflictingOpError rfl
  exact ⟨h.1, (h.2 (by decide) (by decide)).1⟩

/-- Claim C8: `decode` is total by type, and on every transfer record whose
kind the registry does not know it returns the generic fallback value that
keeps the raw kind string in its `kind` field and embeds both the kind and
the transmitted message verbatim in its message. -/
theorem decode_total_fallback (r : Registry) (t : TransferRecord)
    (h : lookupReg r t.kind = none) :
    decode r t = ⟨none, t.kind, t.kind ++ ": " ++ t.message, t.payload⟩ := by
  unfold decode
  rw [h]

/-- Witness for the decode fallback: an unknown kind sent against the
module registry decodes to the inspectable fallback value. -/
theorem decode_total_fallback_witness :
    decode moduleRegistry ⟨"UnknownXYZ", "boundary failure detail", none⟩ =
      ⟨none, "UnknownXYZ", "UnknownXYZ" ++ ": " ++ "boundary failure detail", none⟩ :=
  decode_total_fallback moduleRegistry ⟨"UnknownXYZ", "boundary failure detail", none⟩ (by decide)

/-- Claim C9: every error class the module declares is a subclass of the
single root `TVMError`, itself a subclass of `RuntimeError`, so an
`except TVMError` and an `except RuntimeError` handler both catch every
raised instance of every declared kind. -/
theorem all_caught_by_root :
    ∀ (msg : String) (pl : Option String),
      (moduleErrorClasses.all fun c =>
        catches .TVMError ⟨c, msg, pl⟩ && catches .RuntimeError ⟨c, msg, pl⟩) = true ∧
      isSubclass .TVMError .RuntimeError = true :=
  fun _ _ => ⟨rfl, rfl⟩

/-- Claim C10: exactly nine descriptors, one per decorated class in source
order, are registered at module load; registration succeeds; the kind
`TVMError` is not among them, its lookup fails, and decoding a transfer
record with kind `TVMError` takes the unknown-kind fallback path. -/
theorem module_load_registrations :
    moduleDescriptors.length = 9 ∧
    moduleDescriptors.map VariantDescriptor.kind =
      ["InternalError", "RPCError", "RPCSessionTimeoutError", "OpError",
       "OpNotImplemented", "OpAttributeRequired", "OpAttributeInvalid",
       "OpAttributeUnImplemented", "DiagnosticError"] ∧
    registerAll [] moduleDescriptors = Except.ok moduleRegistry ∧
    lookupReg moduleRegistry "TVMError" = none ∧
    (∀ (msg : String) (pl : Option String),
      (decode moduleRegistry ⟨"TVMError", msg, pl⟩).desc = none) :=
  ⟨rfl, by decide, rfl, by decide, fun _ _ => rfl⟩

end TVMSpec
